import Mathlib

/- Formal model of the AI-Meta-Orchestrator workflow execution engine.
   The definitions below are a shallow embedding of the Python source:
   domain/tasks/task_models.py, domain/workflows/workflow_models.py,
   application/services/orchestrator_service.py, and the agent adapters
   adapters/internal_agents/crewai_agent.py and
   adapters/external_cli/cli_agents.py.
   Modelling conventions: UUIDs are Nat, wall-clock timestamps are Nat
   values passed in explicitly as a `now` argument wherever the source
   calls datetime.now(), the opaque `Any` output payload is Option String,
   the metadata dictionaries (never read by the engine logic) are omitted,
   and exact float score literals (0.0, 30.0, 80.0) are Nat.
   In-place mutation of Python objects is modelled by returning the updated
   value; methods that return a bool and mutate return a pair. -/

namespace Orch

/-- TaskStatus enum from task_models.py. -/
inductive TaskStatus where
  | pending
  | in_progress
  | completed
  | failed
  | needs_revision
  | blocked
deriving DecidableEq, Repr

/-- TaskPriority enum from task_models.py. -/
inductive TaskPriority where
  | low
  | medium
  | high
  | critical
deriving DecidableEq, Repr

/-- AgentRole enum from agent_models.py. -/
inductive AgentRole where
  | pm
  | dev
  | qa
  | security
  | docs
deriving DecidableEq, Repr

/-- String value of each AgentRole member, from agent_models.py. -/
def AgentRole.value : AgentRole → String
  | .pm => "project_manager"
  | .dev => "developer"
  | .qa => "quality_assurance"
  | .security => "security"
  | .docs => "documentation"

/-- TaskResult dataclass from task_models.py (metadata map omitted). -/
structure TaskResult where
  success : Bool
  output : Option String
  error : Option String
  feedback : Option String
deriving DecidableEq, Repr

/-- EvaluationResult dataclass from task_models.py. Scores in the source
    are the exact float literals 0.0, 30.0, 80.0; they are modelled as Nat
    since the engine never does arithmetic on them. -/
structure EvaluationResult where
  passed : Bool
  score : Nat
  feedback : String
  issues : List String
  suggestions : List String
deriving DecidableEq, Repr

/-- Task dataclass from task_models.py (metadata map omitted, id is Nat,
    timestamps are Nat). -/
structure Task where
  name : String
  description : String
  assigned_to : AgentRole
  expected_output : String
  id : Nat
  status : TaskStatus
  priority : TaskPriority
  context_tasks : List Nat
  result : Option TaskResult
  evaluation : Option EvaluationResult
  revision_count : Nat
  max_revisions : Nat
  created_at : Nat
  updated_at : Nat
deriving DecidableEq, Repr

/-- Task.mark_in_progress from task_models.py. -/
def Task.mark_in_progress (t : Task) (now : Nat) : Task :=
  { t with status := TaskStatus.in_progress, updated_at := now }

/-- Task.complete from task_models.py. -/
def Task.complete (t : Task) (r : TaskResult) (now : Nat) : Task :=
  { t with result := some r,
           status := if r.success then TaskStatus.completed else TaskStatus.failed,
           updated_at := now }

/-- Task.request_revision from task_models.py: returns False and performs
    no mutation when revision_count is at or above max_revisions, otherwise
    records the evaluation, increments revision_count, sets the status to
    NEEDS_REVISION and returns True. -/
def Task.request_revision (t : Task) (ev : EvaluationResult) (now : Nat) : Bool × Task :=
  if t.revision_count ≥ t.max_revisions then
    (false, t)
  else
    (true, { t with evaluation := some ev,
                    revision_count := t.revision_count + 1,
                    status := TaskStatus.needs_revision,
                    updated_at := now })

/-- Task.can_be_revised from task_models.py. -/
def Task.can_be_revised (t : Task) : Bool :=
  t.revision_count < t.max_revisions

/-- WorkflowStatus enum from workflow_models.py. -/
inductive WorkflowStatus where
  | not_started
  | running
  | paused
  | completed
  | failed
deriving DecidableEq, Repr

/-- WorkflowMode enum from workflow_models.py. -/
inductive WorkflowMode where
  | sequential
  | parallel
  | hierarchical
deriving DecidableEq, Repr

/-- WorkflowConfig dataclass from workflow_models.py. -/
structure WorkflowConfig where
  mode : WorkflowMode
  max_iterations : Nat
  enable_evaluation : Bool
  enable_correction_loop : Bool
  verbose : Bool
  memory : Bool
deriving DecidableEq, Repr

/-- WorkflowResult dataclass from workflow_models.py. Outputs are keyed by
    str(task.id); duration_seconds (a wall-clock float) is omitted. -/
structure WorkflowResult where
  success : Bool
  tasks_completed : Nat
  tasks_failed : Nat
  total_iterations : Nat
  outputs : List (String × Option String)
  errors : List String
deriving DecidableEq, Repr

/-- Workflow dataclass from workflow_models.py (metadata omitted, id and
    timestamps are Nat). -/
structure Workflow where
  name : String
  description : String
  tasks : List Task
  config : WorkflowConfig
  id : Nat
  status : WorkflowStatus
  result : Option WorkflowResult
  current_iteration : Nat
  created_at : Nat
  started_at : Option Nat
  completed_at : Option Nat
deriving DecidableEq, Repr

/-- Workflow.add_task from workflow_models.py. -/
def Workflow.add_task (w : Workflow) (t : Task) : Workflow :=
  { w with tasks := w.tasks ++ [t] }

/-- Workflow.get_task_by_id from workflow_models.py: first task whose id
    matches, scanning the list in order. -/
def Workflow.get_task_by_id (w : Workflow) (task_id : Nat) : Option Task :=
  w.tasks.find? (fun t => t.id == task_id)

/-- Workflow.get_pending_tasks from workflow_models.py. -/
def Workflow.get_pending_tasks (w : Workflow) : List Task :=
  w.tasks.filter (fun t => t.status == TaskStatus.pending)

/-- Workflow.get_tasks_needing_revision from workflow_models.py. -/
def Workflow.get_tasks_needing_revision (w : Workflow) : List Task :=
  w.tasks.filter (fun t => t.status == TaskStatus.needs_revision)

/-- Workflow.start from workflow_models.py: unconditionally sets the status
    to RUNNING and records the start timestamp, with no guard on the
    current status. -/
def Workflow.start (w : Workflow) (now : Nat) : Workflow :=
  { w with status := WorkflowStatus.running, started_at := some now }

/-- Workflow.complete from workflow_models.py. -/
def Workflow.complete (w : Workflow) (r : WorkflowResult) (now : Nat) : Workflow :=
  { w with result := some r,
           status := if r.success then WorkflowStatus.completed else WorkflowStatus.failed,
           completed_at := some now }

/-- Workflow.increment_iteration from workflow_models.py: returns False and
    leaves the counter unchanged once current_iteration is at or above
    config.max_iterations, otherwise increments it and returns True. -/
def Workflow.increment_iteration (w : Workflow) : Bool × Workflow :=
  if w.current_iteration ≥ w.config.max_iterations then
    (false, w)
  else
    (true, { w with current_iteration := w.current_iteration + 1 })

/-- Workflow.is_complete from workflow_models.py. -/
def Workflow.is_complete (w : Workflow) : Bool :=
  w.tasks.all (fun t => t.status == TaskStatus.completed || t.status == TaskStatus.failed)

/-- Workflow.get_progress from workflow_models.py. -/
def Workflow.get_progress (w : Workflow) : Nat × Nat :=
  (w.tasks.countP (fun t => t.status == TaskStatus.completed || t.status == TaskStatus.failed),
   w.tasks.length)

/-- Modelled from the spec: `Workflow.pause` is referenced by the unit tests
    and by the engine but its definition is missing from the source tree.
    Spec: succeeds only if status == RUNNING; transitions to PAUSED;
    returns false otherwise with no mutation. -/
def Workflow.pause (w : Workflow) : Bool × Workflow :=
  if w.status == WorkflowStatus.running then
    (true, { w with status := WorkflowStatus.paused })
  else
    (false, w)

/-- Modelled from the spec: `Workflow.resume` is referenced by the unit
    tests but its definition is missing from the source tree. Spec:
    succeeds only if status == PAUSED; transitions to RUNNING; returns
    false otherwise with no mutation. -/
def Workflow.resume (w : Workflow) : Bool × Workflow :=
  if w.status == WorkflowStatus.paused then
    (true, { w with status := WorkflowStatus.running })
  else
    (false, w)

/-- True when the dependency id resolves to a task whose status is
    COMPLETED (helper for the spec-modelled get_ready_tasks). -/
def depCompleted (w : Workflow) (dep : Nat) : Bool :=
  match w.get_task_by_id dep with
  | some d => d.status == TaskStatus.completed
  | none => false

/-- Modelled from the spec: `Workflow.get_ready_tasks` is called by the
    parallel branch of the engine and exercised by the unit tests but its
    definition is missing from the source tree. Spec: returns all tasks
    whose status == PENDING and every id in context_tasks refers to a task
    with status COMPLETED, in stable insertion order of the task list. -/
def Workflow.get_ready_tasks (w : Workflow) : List Task :=
  w.tasks.filter (fun t =>
    t.status == TaskStatus.pending && t.context_tasks.all (depCompleted w))

/-- Python truthiness fallback `x or dflt` for an optional string: the
    fallback is used when the value is absent or the empty string. -/
def pythonOr (x : Option String) (dflt : String) : String :=
  match x with
  | none => dflt
  | some s => if s = "" then dflt else s

/-- TaskEvaluator.evaluate from orchestrator_service.py (the observability
    span bracketing is a no-op collaborator and is omitted). The task
    argument is unused by the rule chain, exactly as in the source. -/
def TaskEvaluator.evaluate (_task : Task) (result : TaskResult) : EvaluationResult :=
  if result.success = false then
    { passed := false, score := 0, feedback := "Task failed to execute",
      issues := [pythonOr result.error "Unknown error"], suggestions := [] }
  else if result.output = none ∨ result.output = some "" then
    { passed := false, score := 30, feedback := "Task produced no output",
      issues := ["Empty or missing output"],
      suggestions := ["Ensure the task produces meaningful output"] }
  else
    { passed := true, score := 80, feedback := "Task completed with output",
      issues := [], suggestions := [] }

/-- The behaviour of the agent registry as the engine sees it: a total map
    from role to an agent execution function. With the shipped
    CrewAIAgentFactory every AgentRole member has a default configuration,
    so agent resolution in the engine never fails (see create_agent below). -/
def Agents : Type := AgentRole → Task → TaskResult

/-- OrchestratorService.execute_task from orchestrator_service.py:
    marks the task in progress, resolves the agent for the assigned role,
    invokes it, optionally evaluates a successful result and requests a
    revision when the evaluation fails and revisions remain, and otherwise
    completes the task with the result. Returns the updated task and the
    TaskResult. -/
def execute_task (agents : Agents) (now : Nat) (task : Task)
    (with_evaluation : Bool) : Task × TaskResult :=
  let task1 := task.mark_in_progress now
  let result := agents task1.assigned_to task1
  if with_evaluation && result.success then
    let evaluation := TaskEvaluator.evaluate task1 result
    if !evaluation.passed && task1.can_be_revised then
      ((task1.request_revision evaluation now).2, result)
    else
      (task1.complete result now, result)
  else
    (task1.complete result now, result)

/-- Loop body of OrchestratorService.execute_with_correction_loop, indexed
    by the remaining number of attempts (the Python for-loop over
    range(max_corrections + 1)). The third component counts the
    execute_task attempts actually made. The zero-fuel case returns the
    result of the previous attempt, as the Python loop does when all
    attempts are exhausted; the dummy default is unreachable because the
    entry point always supplies at least one attempt. -/
def executeWithCorrectionLoopGo (agents : Agents) (now : Nat) :
    Nat → Task → Option TaskResult → Task × TaskResult × Nat
  | 0, t, lastR =>
      (t, lastR.getD { success := false, output := none, error := none, feedback := none }, 0)
  | Nat.succ n, t, _lastR =>
      let ex := execute_task agents now t true
      if ex.2.success && (ex.1.status == TaskStatus.completed) then
        (ex.1, ex.2, 1)
      else if ex.1.status == TaskStatus.needs_revision then
        let rest := executeWithCorrectionLoopGo agents now n
          { ex.1 with status := TaskStatus.pending } (some ex.2)
        (rest.1, rest.2.1, rest.2.2 + 1)
      else
        (ex.1, ex.2, 1)

/-- OrchestratorService.execute_with_correction_loop from
    orchestrator_service.py: up to max_corrections + 1 attempts, returning
    immediately on a successful COMPLETED task, re-queueing a
    NEEDS_REVISION task as PENDING, and stopping on anything else. -/
def execute_with_correction_loop (agents : Agents) (now : Nat) (t : Task)
    (max_corrections : Nat) : Task × TaskResult × Nat :=
  executeWithCorrectionLoopGo agents now (max_corrections + 1) t none

/-- Replaces the stored task having the same id, modelling in-place
    mutation of the Python task object referenced from workflow.tasks. -/
def Workflow.update_task (w : Workflow) (t : Task) : Workflow :=
  { w with tasks := w.tasks.map (fun x => if x.id == t.id then t else x) }

/-- Accumulator for a workflow run: the counters, outputs map and errors
    list that run_workflow builds up (the shared mutable state of the
    source, here threaded explicitly). -/
structure RunAcc where
  completed : Nat
  failed : Nat
  outputs : List (String × Option String)
  errors : List String
deriving DecidableEq, Repr

/-- Folds one task result into the accumulator, as both the sequential
    loop and the parallel batch collection do in run_workflow: a success
    bumps the completed counter and records the output under str(task.id);
    a failure bumps the failed counter and, when the error message is
    truthy (present and non-empty), appends "Task <name>: <message>". -/
def tallyResult (t : Task) (r : TaskResult) (acc : RunAcc) : RunAcc :=
  if r.success then
    { acc with completed := acc.completed + 1,
               outputs := acc.outputs ++ [(toString t.id, r.output)] }
  else
    { acc with failed := acc.failed + 1,
               errors := match r.error with
                 | some e => if e = "" then acc.errors
                             else acc.errors ++ ["Task " ++ t.name ++ ": " ++ e]
                 | none => acc.errors }

/-- The per-task dispatch used by both execution modes (execute_single_task
    in the source): the correction loop with its default of 3 corrections
    when enable_correction_loop is set, else plain execute_task with the
    configured evaluation flag. -/
def executeDispatch (agents : Agents) (now : Nat) (cfg : WorkflowConfig)
    (t : Task) : Task × TaskResult :=
  if cfg.enable_correction_loop then
    let res := execute_with_correction_loop agents now t 3
    (res.1, res.2.1)
  else
    execute_task agents now t cfg.enable_evaluation

/-- The SEQUENTIAL branch of run_workflow: walk the task list in order,
    observing a cooperative pause at each loop boundary, executing each
    task through the shared dispatch, tallying its result, and calling
    increment_iteration once per task with its boolean result discarded.
    An externally requested pause (the only way workflow.status can become
    PAUSED mid-run in the source) is modelled by the signal `sig`: when it
    fires at a boundary, Workflow.pause is applied before the status check. -/
def runSequentialGo (agents : Agents) (now : Nat) (sig : Nat → Bool) :
    List Task → Nat → Workflow → RunAcc → Workflow × RunAcc
  | [], _, w, acc => (w, acc)
  | t :: rest, i, w, acc =>
      let w1 := if sig i then (w.pause).2 else w
      if w1.status == WorkflowStatus.paused then
        (w1, acc)
      else
        let ex := executeDispatch agents now w1.config t
        let w2 := w1.update_task ex.1
        let acc2 := tallyResult t ex.2 acc
        let w3 := (w2.increment_iteration).2
        runSequentialGo agents now sig rest (i + 1) w3 acc2

/-- One ready batch of the PARALLEL branch: every ready task is executed
    through the shared dispatch and its result folded into the shared
    accumulator, with increment_iteration invoked once per processed task.
    The source collects concurrent futures as they complete; the
    collection order is nondeterministic there and is fixed here to the
    submission order of the ready list. -/
def processBatch (agents : Agents) (now : Nat) :
    List Task → Workflow → RunAcc → Workflow × RunAcc
  | [], w, acc => (w, acc)
  | t :: rest, w, acc =>
      let ex := executeDispatch agents now w.config t
      let w1 := w.update_task ex.1
      let acc1 := tallyResult t ex.2 acc
      let w2 := (w1.increment_iteration).2
      processBatch agents now rest w2 acc1

/-- OrchestratorService._run_parallel_workflow from orchestrator_service.py,
    with an explicit fuel bound on the while-loop (the source loop need not
    terminate for adversarial stubs). Each round: stop when is_complete;
    observe a cooperative pause; compute get_ready_tasks; when no task is
    ready record the unresolvable-dependency error if pending tasks remain
    and stop; otherwise process the whole ready batch and continue. -/
def runParallelGo (agents : Agents) (now : Nat) (sig : Nat → Bool) :
    Nat → Nat → Workflow → RunAcc → Workflow × RunAcc
  | 0, _, w, acc => (w, acc)
  | Nat.succ fuel, i, w, acc =>
      if w.is_complete then (w, acc)
      else
        let w1 := if sig i then (w.pause).2 else w
        if w1.status == WorkflowStatus.paused then
          (w1, acc)
        else
          let ready := w1.get_ready_tasks
          if ready.isEmpty then
            (w1, if w1.get_pending_tasks.isEmpty then acc
                 else { acc with errors :=
                   acc.errors ++ ["Workflow has unresolvable dependencies or no ready tasks"] })
          else
            let batch := processBatch agents now ready w1 acc
            runParallelGo agents now sig fuel (i + 1) batch.1 batch.2

/-- The mode dispatch of run_workflow, producing the final workflow state
    and raw accumulator. The HIERARCHICAL branch delegates to the external
    CrewAI collaborator, modelled by the `crew` outcome: on success every
    task counts as completed and the aggregate output is stored under
    "crew_result"; on an exception every task counts as failed with the
    exception text as the sole error. -/
def runBody (agents : Agents) (now : Nat) (sig : Nat → Bool) (fuel : Nat)
    (crew : Except String String) (w0 : Workflow) : Workflow × RunAcc :=
  match w0.config.mode with
  | WorkflowMode.sequential =>
      runSequentialGo agents now sig w0.tasks 0 w0 ⟨0, 0, [], []⟩
  | WorkflowMode.parallel =>
      runParallelGo agents now sig fuel 0 w0 ⟨0, 0, [], []⟩
  | WorkflowMode.hierarchical =>
      match crew with
      | Except.ok s => (w0, ⟨w0.tasks.length, 0, [("crew_result", some s)], []⟩)
      | Except.error e => (w0, ⟨0, w0.tasks.length, [], [e]⟩)

/-- The result assembly at the end of run_workflow: a non-paused run builds
    a WorkflowResult whose success flag is exactly tasks_failed == 0 and
    completes the workflow with it; a paused run returns a partial result
    with success false and the single "Workflow paused" marker replacing
    the collected errors, leaving the workflow in its paused state. -/
def finishRun (now : Nat) (wa : Workflow × RunAcc) : Workflow × WorkflowResult :=
  if wa.1.status == WorkflowStatus.paused then
    (wa.1, { success := false, tasks_completed := wa.2.completed,
             tasks_failed := wa.2.failed,
             total_iterations := wa.1.current_iteration,
             outputs := wa.2.outputs, errors := ["Workflow paused"] })
  else
    let res : WorkflowResult :=
      { success := wa.2.failed == 0, tasks_completed := wa.2.completed,
        tasks_failed := wa.2.failed, total_iterations := wa.1.current_iteration,
        outputs := wa.2.outputs, errors := wa.2.errors }
    (wa.1.complete res now, res)

/-- OrchestratorService.run_workflow from orchestrator_service.py: start
    the workflow, run the configured mode, and assemble the result. -/
def run_workflow (agents : Agents) (now : Nat) (sig : Nat → Bool) (fuel : Nat)
    (crew : Except String String) (w : Workflow) : Workflow × WorkflowResult :=
  finishRun now (runBody agents now sig fuel crew (w.start now))

/-- AgentConfig dataclass from agent_models.py (tools list omitted). -/
structure AgentConfig where
  role : AgentRole
  goal : String
  backstory : String
  verbose : Bool
  allow_delegation : Bool
  memory : Bool
deriving DecidableEq, Repr

/-- DEFAULT_AGENT_CONFIGS from agent_models.py, as the dict lookup .get:
    every AgentRole member has an entry. -/
def DEFAULT_AGENT_CONFIGS : AgentRole → Option AgentConfig
  | AgentRole.pm => some
      { role := AgentRole.pm,
        goal := "Coordinate project tasks, manage workflow, and ensure deliverables meet requirements",
        backstory := "You are an experienced Project Manager with expertise in software development workflows. You excel at breaking down complex projects into manageable tasks, coordinating between team members, and ensuring quality deliverables.",
        verbose := true, allow_delegation := true, memory := true }
  | AgentRole.dev => some
      { role := AgentRole.dev,
        goal := "Implement high-quality code solutions that meet specifications",
        backstory := "You are a skilled Software Developer with expertise in multiple programming languages and frameworks. You write clean, maintainable, and well-documented code while following best practices and design patterns.",
        verbose := true, allow_delegation := false, memory := true }
  | AgentRole.qa => some
      { role := AgentRole.qa,
        goal := "Ensure code quality through thorough testing and review",
        backstory := "You are a meticulous Quality Assurance Engineer who specializes in finding bugs, edge cases, and potential issues. You create comprehensive test plans and ensure software meets quality standards before release.",
        verbose := true, allow_delegation := false, memory := true }
  | AgentRole.security => some
      { role := AgentRole.security,
        goal := "Identify and mitigate security vulnerabilities and ensure compliance",
        backstory := "You are a Security Expert with deep knowledge of security best practices, common vulnerabilities, and compliance requirements. You review code and architecture for security issues and provide remediation guidance.",
        verbose := true, allow_delegation := false, memory := true }
  | AgentRole.docs => some
      { role := AgentRole.docs,
        goal := "Create clear, comprehensive, and maintainable documentation",
        backstory := "You are a Technical Writer who excels at creating documentation that is both thorough and accessible. You understand the importance of good documentation for code maintainability and user adoption.",
        verbose := true, allow_delegation := false, memory := true }

/-- CrewAIAgentFactory.create_agent from crewai_agent.py, modelled without
    the per-role instance cache (the cached instance is the one this very
    computation produced, so caching is observationally irrelevant here):
    uses the explicit config when given, else the default config for the
    role, and raises ValueError when neither exists. The raised message is
    modelled by its static text followed by the role (the exact rendering
    of the enum member in the f-string is version-dependent in Python). -/
def create_agent (config : Option AgentConfig) (role : AgentRole) :
    Except String AgentConfig :=
  match config with
  | some c => Except.ok c
  | none =>
      match DEFAULT_AGENT_CONFIGS role with
      | some c => Except.ok c
      | none => Except.error ("No configuration found for role: " ++ role.value)

/-- CLICommandResult dataclass from external_port.py. -/
structure CLICommandResult where
  success : Bool
  output : String
  error : String
  exit_code : Int
deriving DecidableEq, Repr

/-- ExternalCLIAgent._format_task_as_prompt from cli_agents.py (the
    metadata context block is omitted along with the metadata map). -/
def format_task_as_prompt (task : Task) : String :=
  let parts := ["Task: " ++ task.name, "Description: " ++ task.description]
  let parts := if task.expected_output ≠ "" then
      parts ++ ["Expected Output: " ++ task.expected_output]
    else parts
  String.intercalate "\n\n" parts

/-- ExternalCLIAgent.execute_task from cli_agents.py: the availability and
    authentication guards live inside the agent itself and yield a failed
    TaskResult with the messages "<cli> CLI is not available" and
    "Authentication required for <cli> CLI" without invoking the CLI;
    otherwise the formatted prompt is handed to the CLI adapter and its
    CLICommandResult is repackaged. -/
def ExternalCLIAgent_execute_task (is_available is_authenticated : Bool)
    (cli_value : String) (cli_execute : String → CLICommandResult)
    (task : Task) : TaskResult :=
  if !is_available then
    { success := false, output := none,
      error := some (cli_value ++ " CLI is not available"), feedback := none }
  else if !is_authenticated then
    { success := false, output := none,
      error := some ("Authentication required for " ++ cli_value ++ " CLI"),
      feedback := none }
  else
    let result := cli_execute (format_task_as_prompt task)
    { success := result.success,
      output := some (if result.success then result.output else ""),
      error := some (if !result.success then result.error else ""),
      feedback := none }

/-- A task as the Python Task constructor builds it from the required
    arguments, all defaulted fields at their dataclass defaults. -/
def mkTask (nm desc : String) (tid : Nat) (role : AgentRole)
    (deps : List Nat) : Task :=
  { name := nm, description := desc, assigned_to := role, expected_output := "",
    id := tid, status := TaskStatus.pending, priority := TaskPriority.medium,
    context_tasks := deps, result := none, evaluation := none,
    revision_count := 0, max_revisions := 3, created_at := 0, updated_at := 0 }

/-- A workflow as the Python Workflow constructor builds it. -/
def mkWorkflow (ts : List Task) (cfg : WorkflowConfig) : Workflow :=
  { name := "W", description := "", tasks := ts, config := cfg, id := 0,
    status := WorkflowStatus.not_started, result := none, current_iteration := 0,
    created_at := 0, started_at := none, completed_at := none }

/-- The WorkflowConfig dataclass defaults with a chosen mode and iteration cap. -/
def mkConfig (m : WorkflowMode) (maxIter : Nat) : WorkflowConfig :=
  { mode := m, max_iterations := maxIter, enable_evaluation := true,
    enable_correction_loop := true, verbose := true, memory := true }

/-- Fixture: a plain pending developer task with no dependencies. -/
def sampleDevTask : Task := mkTask "Implement" "Write code" 7 AgentRole.dev []

/-- Fixture: a task whose revision counter already sits at the bound. -/
def taskAtBound : Task := { sampleDevTask with revision_count := 3 }

/-- Fixture: a generic failing evaluation. -/
def sampleEval : EvaluationResult :=
  { passed := false, score := 10, feedback := "redo", issues := ["x"], suggestions := [] }

/-- Fixture: a failed TaskResult carrying the empty string as its error. -/
def emptyErrorResult : TaskResult :=
  { success := false, output := none, error := some "", feedback := none }

/-- Fixture: a failed TaskResult with a non-empty error message. -/
def failedBoomResult : TaskResult :=
  { success := false, output := none, error := some "boom", feedback := none }

/-- Fixture: a successful TaskResult with non-empty output. -/
def okOutputResult : TaskResult :=
  { success := true, output := some "x", error := none, feedback := none }

/-- Fixture: agents that always succeed with output "x". -/
def stubAgents : Agents := fun _ _ => okOutputResult

/-- Fixture: agents that always fail with the error "boom". -/
def failAgents : Agents := fun _ _ => failedBoomResult

/-- Fixture: every role is served by a Gemini CLI agent whose underlying
    CLI is not available (the CLI adapter itself is never reached). -/
def unavailableGeminiAgents : Agents := fun _ t =>
  ExternalCLIAgent_execute_task false true "gemini" (fun _ => ⟨true, "", "", 0⟩) t

/-- Fixture: a running workflow with no tasks. -/
def runningWorkflow : Workflow :=
  { mkWorkflow [] (mkConfig WorkflowMode.sequential 10) with
      status := WorkflowStatus.running }

/-- Fixture: a paused workflow with no tasks. -/
def pausedWorkflow : Workflow :=
  { mkWorkflow [] (mkConfig WorkflowMode.sequential 10) with
      status := WorkflowStatus.paused }

/-- Fixture: first task of a two-task dependency chain. -/
def chainTask1 : Task := mkTask "Task 1" "First" 1 AgentRole.dev []

/-- Fixture: second task of the chain, depending on the first. -/
def chainTask2 : Task := mkTask "Task 2" "Second" 2 AgentRole.qa [1]

/-- Fixture: the two-task chain workflow in parallel mode. -/
def chainWorkflow : Workflow :=
  mkWorkflow [chainTask1, chainTask2] (mkConfig WorkflowMode.parallel 10)

/-- Fixture: two tasks, each declaring the other as its dependency. -/
def deadlockWorkflow : Workflow :=
  mkWorkflow [mkTask "A" "" 1 AgentRole.dev [2], mkTask "B" "" 2 AgentRole.qa [1]]
    (mkConfig WorkflowMode.parallel 10)

/-- Fixture: a sequential two-task workflow whose iteration cap is zero. -/
def cappedSequentialWorkflow : Workflow :=
  mkWorkflow [mkTask "A" "" 1 AgentRole.dev [], mkTask "B" "" 2 AgentRole.qa []]
    (mkConfig WorkflowMode.sequential 0)

/-- Fixture: a sequential one-task workflow. -/
def oneTaskWorkflow : Workflow :=
  mkWorkflow [mkTask "A" "" 1 AgentRole.dev []] (mkConfig WorkflowMode.sequential 10)

/-- The shape of a task-level error string recorded by run_workflow. -/
def errorForm (e : String) : Prop :=
  ∃ nm msg, e = "Task " ++ nm ++ ": " ++ msg

/-- Fixture: the deadlocked two-task workflow run in parallel mode. -/
def deadlockRun : Workflow × WorkflowResult :=
  run_workflow stubAgents 0 (fun _ => false) 5 (Except.ok "") deadlockWorkflow

/-- Fixture: the one-task sequential workflow run with the failing agents. -/
def failingSeqRun : Workflow × WorkflowResult :=
  run_workflow failAgents 0 (fun _ => false) 5 (Except.ok "") oneTaskWorkflow

/- ------------------------------------------------------------------ -/
/- Helper lemmas shared by the claim theorems.                         -/
/- ------------------------------------------------------------------ -/

theorem request_revision_max_eq (t : Task) (ev : EvaluationResult) (now : Nat) :
    ((t.request_revision ev now).2).max_revisions = t.max_revisions := by
  unfold Task.request_revision
  split <;> rfl

theorem request_revision_invariant (t : Task) (ev : EvaluationResult) (now : Nat)
    (h : t.revision_count ≤ t.max_revisions) :
    ((t.request_revision ev now).2).revision_count
      ≤ ((t.request_revision ev now).2).max_revisions := by
  unfold Task.request_revision
  split
  · exact h
  · rename_i hlt
    simp only
    omega

theorem foldl_request_revision_invariant (evs : List (EvaluationResult × Nat)) :
    ∀ t : Task, t.revision_count ≤ t.max_revisions →
      (evs.foldl (fun cur e => (cur.request_revision e.1 e.2).2) t).revision_count
        ≤ (evs.foldl (fun cur e => (cur.request_revision e.1 e.2).2) t).max_revisions := by
  induction evs with
  | nil => intro t h; simpa using h
  | cons e rest ih =>
      intro t h
      simpa using ih ((t.request_revision e.1 e.2).2)
        (request_revision_invariant t e.1 e.2 h)

theorem foldl_request_revision_max_eq (evs : List (EvaluationResult × Nat)) :
    ∀ t : Task,
      (evs.foldl (fun cur e => (cur.request_revision e.1 e.2).2) t).max_revisions
        = t.max_revisions := by
  induction evs with
  | nil => intro t; rfl
  | cons e rest ih =>
      intro t
      simpa [request_revision_max_eq] using ih ((t.request_revision e.1 e.2).2)

theorem increment_iteration_config_eq (w : Workflow) :
    ((w.increment_iteration).2).config = w.config := by
  unfold Workflow.increment_iteration
  split <;> rfl

theorem increment_iteration_invariant (w : Workflow)
    (h : w.current_iteration ≤ w.config.max_iterations) :
    ((w.increment_iteration).2).current_iteration
      ≤ ((w.increment_iteration).2).config.max_iterations := by
  unfold Workflow.increment_iteration
  split
  · exact h
  · rename_i hlt
    simp only
    omega

theorem iterate_increment_invariant (n : Nat) :
    ∀ w : Workflow, w.current_iteration ≤ w.config.max_iterations →
      ((fun x => (Workflow.increment_iteration x).2)^[n] w).current_iteration
        ≤ ((fun x => (Workflow.increment_iteration x).2)^[n] w).config.max_iterations := by
  induction n with
  | zero => intro w h; simpa using h
  | succ m ih =>
      intro w h
      rw [Function.iterate_succ_apply]
      exact ih ((w.increment_iteration).2) (increment_iteration_invariant w h)

theorem iterate_increment_config_eq (n : Nat) :
    ∀ w : Workflow,
      ((fun x => (Workflow.increment_iteration x).2)^[n] w).config = w.config := by
  induction n with
  | zero => intro w; rfl
  | succ m ih =>
      intro w
      rw [Function.iterate_succ_apply]
      rw [ih ((w.increment_iteration).2)]
      exact increment_iteration_config_eq w

theorem correctionLoopGo_succ (agents : Agents) (now : Nat) (n : Nat) (t : Task)
    (lastR : Option TaskResult) :
    executeWithCorrectionLoopGo agents now (n + 1) t lastR =
      (let ex := execute_task agents now t true
       if ex.2.success && (ex.1.status == TaskStatus.completed) then
         (ex.1, ex.2, 1)
       else if ex.1.status == TaskStatus.needs_revision then
         (let rest := executeWithCorrectionLoopGo agents now n
            { ex.1 with status := TaskStatus.pending } (some ex.2)
          (rest.1, rest.2.1, rest.2.2 + 1))
       else
         (ex.1, ex.2, 1)) := rfl

theorem correctionLoopGo_attempts_le (agents : Agents) (now : Nat) :
    ∀ (n : Nat) (t : Task) (lastR : Option TaskResult),
      (executeWithCorrectionLoopGo agents now n t lastR).2.2 ≤ n := by
  intro n
  induction n with
  | zero =>
      intro t lastR
      simp [executeWithCorrectionLoopGo]
  | succ m ih =>
      intro t lastR
      rw [correctionLoopGo_succ]
      simp only
      split
      · simp
      · split
        · exact Nat.add_le_add_right (ih _ _) 1
        · simp

/- ------------------------------------------------------------------ -/
/- Claim theorems.                                                     -/
/- ------------------------------------------------------------------ -/

/-- Claim C10: for every Workflow in any status, start() unconditionally
    sets the status to RUNNING and overwrites started_at with the current
    time; there is no guard branch, so even a paused, completed or failed
    workflow is silently restarted. -/
theorem claim_C10_start_unconditional (w : Workflow) (now : Nat) :
    w.start now = { w with status := WorkflowStatus.running, started_at := some now } :=
  rfl

/-- Claim C2: pause() returns true and moves the status to PAUSED exactly
    when the status is RUNNING and otherwise returns false with no state
    change; resume() returns true and moves the status to RUNNING exactly
    when the status is PAUSED and otherwise returns false with no state
    change. -/
theorem claim_C2_pause_resume (w : Workflow) :
    (w.status = WorkflowStatus.running →
      w.pause = (true, { w with status := WorkflowStatus.paused })) ∧
    (w.status ≠ WorkflowStatus.running → w.pause = (false, w)) ∧
    (w.status = WorkflowStatus.paused →
      w.resume = (true, { w with status := WorkflowStatus.running })) ∧
    (w.status ≠ WorkflowStatus.paused → w.resume = (false, w)) := by
  refine ⟨?_, ?_, ?_, ?_⟩ <;> intro h <;>
    simp [Workflow.pause, Workflow.resume, h]

/-- Claim C2 witness: a running workflow is paused with a true return, a
    paused workflow is resumed with a true return, and each operation is a
    no-op on the complementary state. -/
theorem claim_C2_witness :
    runningWorkflow.pause = (true, { runningWorkflow with status := WorkflowStatus.paused }) ∧
    pausedWorkflow.resume = (true, { pausedWorkflow with status := WorkflowStatus.running }) ∧
    pausedWorkflow.pause = (false, pausedWorkflow) ∧
    runningWorkflow.resume = (false, runningWorkflow) :=
  ⟨(claim_C2_pause_resume runningWorkflow).1 rfl,
   (claim_C2_pause_resume pausedWorkflow).2.2.1 rfl,
   (claim_C2_pause_resume pausedWorkflow).2.1 (by decide),
   (claim_C2_pause_resume runningWorkflow).2.2.2 (by decide)⟩

/-- Claim C3: request_revision returns false and mutates nothing once
    revision_count is at or above max_revisions, otherwise records the
    evaluation, increments revision_count, sets NEEDS_REVISION and returns
    true; consequently revision_count never exceeds max_revisions after
    any sequence of request_revision calls. -/
theorem claim_C3_request_revision_bound (t : Task) (ev : EvaluationResult) (now : Nat) :
    (t.revision_count ≥ t.max_revisions → t.request_revision ev now = (false, t)) ∧
    (t.revision_count < t.max_revisions →
      t.request_revision ev now =
        (true, { t with evaluation := some ev,
                        revision_count := t.revision_count + 1,
                        status := TaskStatus.needs_revision,
                        updated_at := now })) ∧
    (∀ evs : List (EvaluationResult × Nat),
      t.revision_count ≤ t.max_revisions →
      (evs.foldl (fun cur e => (cur.request_revision e.1 e.2).2) t).revision_count
        ≤ t.max_revisions) := by
  refine ⟨?_, ?_, ?_⟩
  · intro h
    unfold Task.request_revision
    simp [h]
  · intro h
    unfold Task.request_revision
    simp [Nat.not_le.mpr h]
  · intro evs h
    have h1 := foldl_request_revision_invariant evs t h
    have h2 := foldl_request_revision_max_eq evs t
    omega

/-- Claim C3 witness: at the bound the call is rejected without mutation,
    below the bound it mutates as specified, and a concrete call sequence
    stays within the bound. -/
theorem claim_C3_witness :
    taskAtBound.request_revision sampleEval 5 = (false, taskAtBound) ∧
    sampleDevTask.request_revision sampleEval 5 =
      (true, { sampleDevTask with evaluation := some sampleEval,
                                  revision_count := 1,
                                  status := TaskStatus.needs_revision,
                                  updated_at := 5 }) ∧
    ([(sampleEval, 1), (sampleEval, 2), (sampleEval, 3), (sampleEval, 4)].foldl
        (fun cur e => (cur.request_revision e.1 e.2).2) sampleDevTask).revision_count
      ≤ sampleDevTask.max_revisions :=
  ⟨(claim_C3_request_revision_bound taskAtBound sampleEval 5).1 (by decide),
   (claim_C3_request_revision_bound sampleDevTask sampleEval 5).2.1 (by decide),
   (claim_C3_request_revision_bound sampleDevTask sampleEval 0).2.2
     [(sampleEval, 1), (sampleEval, 2), (sampleEval, 3), (sampleEval, 4)] (by decide)⟩

/-- Claim C4: increment_iteration returns false and leaves the counter
    unchanged once current_iteration is at or above config.max_iterations,
    otherwise increments it and returns true; consequently
    current_iteration never exceeds config.max_iterations under any number
    of increment_iteration calls. -/
theorem claim_C4_increment_iteration_bound (w : Workflow) (n : Nat) :
    (w.current_iteration ≥ w.config.max_iterations →
      w.increment_iteration = (false, w)) ∧
    (w.current_iteration < w.config.max_iterations →
      w.increment_iteration =
        (true, { w with current_iteration := w.current_iteration + 1 })) ∧
    (w.current_iteration ≤ w.config.max_iterations →
      ((fun x => (Workflow.increment_iteration x).2)^[n] w).current_iteration
        ≤ w.config.max_iterations) := by
  refine ⟨?_, ?_, ?_⟩
  · intro h
    unfold Workflow.increment_iteration
    simp [h]
  · intro h
    unfold Workflow.increment_iteration
    simp [Nat.not_le.mpr h]
  · intro h
    have h1 := iterate_increment_invariant n w h
    have h2 := iterate_increment_config_eq n w
    rw [h2] at h1
    exact h1

/-- Claim C4 witness: a workflow at its cap rejects the increment without
    mutation, one below the cap increments, and ten increments of a
    zero-cap workflow leave the counter at the cap. -/
theorem claim_C4_witness :
    (cappedSequentialWorkflow.increment_iteration = (false, cappedSequentialWorkflow)) ∧
    (runningWorkflow.increment_iteration =
      (true, { runningWorkflow with current_iteration := 1 })) ∧
    (((fun x => (Workflow.increment_iteration x).2)^[10] cappedSequentialWorkflow).current_iteration
      ≤ cappedSequentialWorkflow.config.max_iterations) :=
  ⟨(claim_C4_increment_iteration_bound cappedSequentialWorkflow 0).1 (by decide),
   (claim_C4_increment_iteration_bound runningWorkflow 0).2.1 (by decide),
   (claim_C4_increment_iteration_bound cappedSequentialWorkflow 10).2.2 (by decide)⟩

/-- Claim C6 (amended): the evaluator is a deterministic rule chain; a
    failed result yields a failed evaluation with score 0 whose sole issue
    is the result error when that error is present and non-empty and the
    placeholder "Unknown error" otherwise; a successful result with empty
    or missing output yields a failed evaluation with score 30, the issue
    "Empty or missing output" and a suggestion to produce output; any other
    successful result yields a passing evaluation with score 80 and generic
    positive feedback. -/
theorem claim_C6_evaluator_rule_chain (t : Task) (r : TaskResult) :
    (r.success = false →
      TaskEvaluator.evaluate t r =
        { passed := false, score := 0, feedback := "Task failed to execute",
          issues := [pythonOr r.error "Unknown error"], suggestions := [] }) ∧
    (r.success = true → (r.output = none ∨ r.output = some "") →
      TaskEvaluator.evaluate t r =
        { passed := false, score := 30, feedback := "Task produced no output",
          issues := ["Empty or missing output"],
          suggestions := ["Ensure the task produces meaningful output"] }) ∧
    (r.success = true → ¬(r.output = none ∨ r.output = some "") →
      TaskEvaluator.evaluate t r =
        { passed := true, score := 80, feedback := "Task completed with output",
          issues := [], suggestions := [] }) := by
  refine ⟨?_, ?_, ?_⟩
  · intro h
    unfold TaskEvaluator.evaluate
    simp [h]
  · intro h hout
    unfold TaskEvaluator.evaluate
    simp [h, hout]
  · intro h hout
    unfold TaskEvaluator.evaluate
    simp [h, hout]

/-- Claim C6 counterexample: for a failed result whose error is the empty
    string, the sole issue reported is the placeholder "Unknown error",
    not the result error itself. -/
theorem claim_C6_counterexample :
    emptyErrorResult.success = false ∧
    emptyErrorResult.error = some "" ∧
    (TaskEvaluator.evaluate sampleDevTask emptyErrorResult).issues = ["Unknown error"] ∧
    (TaskEvaluator.evaluate sampleDevTask emptyErrorResult).issues ≠ [""] := by
  decide

/-- Claim C6 witness: the three branches of the rule chain evaluated at
    concrete results. -/
theorem claim_C6_witness :
    TaskEvaluator.evaluate sampleDevTask failedBoomResult =
      { passed := false, score := 0, feedback := "Task failed to execute",
        issues := [pythonOr failedBoomResult.error "Unknown error"], suggestions := [] } ∧
    TaskEvaluator.evaluate sampleDevTask
        { success := true, output := none, error := none, feedback := none } =
      { passed := false, score := 30, feedback := "Task produced no output",
        issues := ["Empty or missing output"],
        suggestions := ["Ensure the task produces meaningful output"] } ∧
    TaskEvaluator.evaluate sampleDevTask okOutputResult =
      { passed := true, score := 80, feedback := "Task completed with output",
        issues := [], suggestions := [] } :=
  ⟨(claim_C6_evaluator_rule_chain sampleDevTask failedBoomResult).1 rfl,
   (claim_C6_evaluator_rule_chain sampleDevTask
      { success := true, output := none, error := none, feedback := none }).2.1 rfl
      (Or.inl rfl),
   (claim_C6_evaluator_rule_chain sampleDevTask okOutputResult).2.2 rfl (by decide)⟩

/-- Claim C7 counterexample: with an external CLI agent whose underlying
    CLI is unavailable, the per-task primitive records the failure with the
    agent message "gemini CLI is not available", not with a string of the
    form "<role> unavailable" for the role "developer" of the task; the
    availability check lives inside the invoked agent, not in the caller. -/
theorem claim_C7_counterexample :
    (execute_task unavailableGeminiAgents 0 sampleDevTask true).2.error
        = some "gemini CLI is not available" ∧
    sampleDevTask.assigned_to.value = "developer" ∧
    (execute_task unavailableGeminiAgents 0 sampleDevTask true).2.error
        ≠ some "developer unavailable" ∧
    (execute_task unavailableGeminiAgents 0 sampleDevTask true).1.status
        = TaskStatus.failed := by
  decide

/-- Claim C7 (amended): execute_task performs no availability pre-check and
    always invokes the resolved agent; with the shipped CrewAI factory
    every role resolves to a default configuration, so agent creation never
    fails for an enum role; availability is checked inside the external CLI
    agent itself, which returns TaskResult(success=false,
    error="<cli> CLI is not available") without consulting the CLI; the
    engine then marks the task FAILED and the correction loop stops after
    that single attempt with no retry. -/
theorem claim_C7_agent_availability (role : AgentRole) (t : Task) (now : Nat)
    (auth : Bool) (cli_value : String) (cli_execute : String → CLICommandResult) :
    (∃ c, create_agent none role = Except.ok c) ∧
    (ExternalCLIAgent_execute_task false auth cli_value cli_execute t =
      { success := false, output := none,
        error := some (cli_value ++ " CLI is not available"), feedback := none }) ∧
    ((execute_task
        (fun _ x => ExternalCLIAgent_execute_task false auth cli_value cli_execute x)
        now t true).1.status = TaskStatus.failed) ∧
    (execute_with_correction_loop
        (fun _ x => ExternalCLIAgent_execute_task false auth cli_value cli_execute x)
        now t 3 =
      ((execute_task
          (fun _ x => ExternalCLIAgent_execute_task false auth cli_value cli_execute x)
          now t true).1,
       (execute_task
          (fun _ x => ExternalCLIAgent_execute_task false auth cli_value cli_execute x)
          now t true).2, 1)) := by
  refine ⟨?_, ?_, ?_, ?_⟩
  · cases role <;> exact ⟨_, rfl⟩
  · rfl
  · simp [execute_task, ExternalCLIAgent_execute_task, Task.complete,
      Task.mark_in_progress]
  · unfold execute_with_correction_loop
    unfold executeWithCorrectionLoopGo
    simp [execute_task, ExternalCLIAgent_execute_task, Task.complete,
      Task.mark_in_progress]

/-- Claim C5: the correction loop makes at most max_corrections + 1
    attempts, each one call of execute_task; it returns immediately with
    the attempt result when the task reaches COMPLETED with a successful
    result; on NEEDS_REVISION it resets the status to PENDING and
    continues; in every other case it stops and returns the result of the
    last attempt. -/
theorem claim_C5_correction_loop (agents : Agents) (now : Nat) (t : Task)
    (mc n : Nat) (lastR : Option TaskResult) :
    ((execute_with_correction_loop agents now t mc).2.2 ≤ mc + 1) ∧
    ((execute_task agents now t true).2.success = true →
      (execute_task agents now t true).1.status = TaskStatus.completed →
      executeWithCorrectionLoopGo agents now (n + 1) t lastR =
        ((execute_task agents now t true).1, (execute_task agents now t true).2, 1)) ∧
    ((execute_task agents now t true).1.status = TaskStatus.needs_revision →
      executeWithCorrectionLoopGo agents now (n + 1) t lastR =
        ((executeWithCorrectionLoopGo agents now n
            { (execute_task agents now t true).1 with status := TaskStatus.pending }
            (some (execute_task agents now t true).2)).1,
         (executeWithCorrectionLoopGo agents now n
            { (execute_task agents now t true).1 with status := TaskStatus.pending }
            (some (execute_task agents now t true).2)).2.1,
         (executeWithCorrectionLoopGo agents now n
            { (execute_task agents now t true).1 with status := TaskStatus.pending }
            (some (execute_task agents now t true).2)).2.2 + 1)) ∧
    (¬((execute_task agents now t true).2.success = true ∧
        (execute_task agents now t true).1.status = TaskStatus.completed) →
      (execute_task agents now t true).1.status ≠ TaskStatus.needs_revision →
      executeWithCorrectionLoopGo agents now (n + 1) t lastR =
        ((execute_task agents now t true).1, (execute_task agents now t true).2, 1)) := by
  refine ⟨?_, ?_, ?_, ?_⟩
  · exact correctionLoopGo_attempts_le agents now (mc + 1) t none
  · intro hs hc
    rw [correctionLoopGo_succ]
    simp [hs, hc]
  · intro hr
    rw [correctionLoopGo_succ]
    simp [hr]
  · intro hnot hnr
    have h1 : ((execute_task agents now t true).2.success &&
        ((execute_task agents now t true).1.status == TaskStatus.completed)) = false := by
      rcases Bool.eq_false_or_eq_true (execute_task agents now t true).2.success with hs | hs
      · have hne : (execute_task agents now t true).1.status ≠ TaskStatus.completed :=
          fun hc => hnot ⟨hs, hc⟩
        simp [hs, hne]
      · simp [hs]
    rw [correctionLoopGo_succ]
    simp [h1, hnr]

/-- Claim C5 witness: with always-succeeding agents a fresh task completes
    on the first attempt and the attempt count is bounded. -/
theorem claim_C5_witness :
    ((execute_with_correction_loop stubAgents 0 sampleDevTask 3).2.2 ≤ 4) ∧
    (executeWithCorrectionLoopGo stubAgents 0 1 sampleDevTask none =
      ((execute_task stubAgents 0 sampleDevTask true).1,
       (execute_task stubAgents 0 sampleDevTask true).2, 1)) :=
  ⟨(claim_C5_correction_loop stubAgents 0 sampleDevTask 3 0 none).1,
   (claim_C5_correction_loop stubAgents 0 sampleDevTask 3 0 none).2.1
     (by decide) (by decide)⟩

/-- Claim C1: get_ready_tasks returns exactly the tasks that are PENDING
    and all of whose context_tasks ids resolve to COMPLETED tasks, in
    stable insertion order (a sublist of the task list); a task one of
    whose dependencies resolves to a non-COMPLETED task (FAILED or
    otherwise incomplete) is never returned; and the parallel branch of
    the engine takes each executed batch from this very operation. -/
theorem claim_C1_get_ready_tasks (w : Workflow) :
    (∀ t : Task, t ∈ w.get_ready_tasks ↔
      (t ∈ w.tasks ∧ t.status = TaskStatus.pending ∧
        t.context_tasks.all (depCompleted w) = true)) ∧
    (∀ dep : Nat, depCompleted w dep = true ↔
      (∃ d, w.get_task_by_id dep = some d ∧ d.status = TaskStatus.completed)) ∧
    (List.Sublist w.get_ready_tasks w.tasks) ∧
    (∀ (t : Task) (dep : Nat) (d : Task), t ∈ w.tasks → dep ∈ t.context_tasks →
      w.get_task_by_id dep = some d → d.status ≠ TaskStatus.completed →
      t ∉ w.get_ready_tasks) ∧
    (∀ (agents : Agents) (now : Nat) (sig : Nat → Bool) (fuel i : Nat) (acc : RunAcc),
      w.is_complete = false → sig i = false → w.status ≠ WorkflowStatus.paused →
      w.get_ready_tasks ≠ [] →
      runParallelGo agents now sig (fuel + 1) i w acc =
        runParallelGo agents now sig fuel (i + 1)
          (processBatch agents now w.get_ready_tasks w acc).1
          (processBatch agents now w.get_ready_tasks w acc).2) := by
  have hdep : ∀ dep : Nat, depCompleted w dep = true ↔
      (∃ d, w.get_task_by_id dep = some d ∧ d.status = TaskStatus.completed) := by
    intro dep
    unfold depCompleted
    cases h : w.get_task_by_id dep with
    | none => simp [h]
    | some d => simp [h]
  have hmem : ∀ t : Task, t ∈ w.get_ready_tasks ↔
      (t ∈ w.tasks ∧ t.status = TaskStatus.pending ∧
        t.context_tasks.all (depCompleted w) = true) := by
    intro t
    unfold Workflow.get_ready_tasks
    simp [List.mem_filter, and_assoc]
  refine ⟨hmem, hdep, ?_, ?_, ?_⟩
  · exact List.filter_sublist w.tasks
  · intro t dep d hmem2 hdepmem hfind hstat hready
    have h1 := (hmem t).mp hready
    have h2 : depCompleted w dep = true := by
      have := h1.2.2
      rw [List.all_eq_true] at this
      exact this dep hdepmem
    rcases (hdep dep).mp h2 with ⟨d2, hfind2, hstat2⟩
    rw [hfind] at hfind2
    cases hfind2
    exact hstat hstat2
  · intro agents now sig fuel i acc hic hsig hpause hready
    have h2 : (w.status == WorkflowStatus.paused) = false := by
      simp [hpause]
    have h3 : w.get_ready_tasks.isEmpty = false := by
      cases hr : w.get_ready_tasks with
      | nil => exact absurd hr hready
      | cons a l => rfl
    simp only [runParallelGo, hic, hsig, h2, h3, Bool.false_eq_true, if_false]

/-- Claim C1 witness: in the two-task chain workflow the independent first
    task is ready and the dependent second task is not. -/
theorem claim_C1_witness :
    chainTask1 ∈ chainWorkflow.get_ready_tasks ∧
    chainTask2 ∉ chainWorkflow.get_ready_tasks :=
  ⟨((claim_C1_get_ready_tasks chainWorkflow).1 chainTask1).mpr (by decide),
   fun h => absurd (((claim_C1_get_ready_tasks chainWorkflow).1 chainTask2).mp h)
     (by decide)⟩

theorem update_task_status (w : Workflow) (t : Task) :
    (w.update_task t).status = w.status := rfl

theorem update_task_config (w : Workflow) (t : Task) :
    (w.update_task t).config = w.config := rfl

theorem update_task_iter (w : Workflow) (t : Task) :
    (w.update_task t).current_iteration = w.current_iteration := rfl

theorem increment_status_eq (w : Workflow) :
    ((w.increment_iteration).2).status = w.status := by
  unfold Workflow.increment_iteration
  split <;> rfl

theorem increment_iter_eq (w : Workflow) :
    ((w.increment_iteration).2).current_iteration =
      if w.current_iteration ≥ w.config.max_iterations then w.current_iteration
      else w.current_iteration + 1 := by
  unfold Workflow.increment_iteration
  split <;> simp_all

theorem seqGo_cons (agents : Agents) (now : Nat) (sig : Nat → Bool) (t : Task)
    (rest : List Task) (i : Nat) (w : Workflow) (acc : RunAcc) :
    runSequentialGo agents now sig (t :: rest) i w acc =
      (let w1 := if sig i then (w.pause).2 else w
       if w1.status == WorkflowStatus.paused then (w1, acc)
       else
         let ex := executeDispatch agents now w1.config t
         let w2 := w1.update_task ex.1
         let acc2 := tallyResult t ex.2 acc
         let w3 := (w2.increment_iteration).2
         runSequentialGo agents now sig rest (i + 1) w3 acc2) := rfl

theorem tally_count (t : Task) (r : TaskResult) (acc : RunAcc) :
    (tallyResult t r acc).completed + (tallyResult t r acc).failed
      = acc.completed + acc.failed + 1 := by
  unfold tallyResult
  split <;> simp <;> omega

theorem tally_errors (t : Task) (r : TaskResult) (acc : RunAcc) :
    ∀ e ∈ (tallyResult t r acc).errors,
      e ∈ acc.errors ∨ ∃ msg, e = "Task " ++ t.name ++ ": " ++ msg := by
  unfold tallyResult
  split
  · intro e he
    exact Or.inl he
  · intro e he
    rcases hr : r.error with _ | e0
    · rw [hr] at he
      exact Or.inl he
    · rw [hr] at he
      have he2 : e ∈ (if e0 = "" then acc.errors
          else acc.errors ++ ["Task " ++ t.name ++ ": " ++ e0]) := he
      by_cases h0 : e0 = ""
      · rw [if_pos h0] at he2
        exact Or.inl he2
      · rw [if_neg h0] at he2
        rcases List.mem_append.mp he2 with h | h
        · exact Or.inl h
        · rcases List.mem_singleton.mp h with rfl
          exact Or.inr ⟨e0, rfl⟩

theorem seqGo_no_pause (agents : Agents) (now : Nat) (sig : Nat → Bool)
    (hsig : ∀ j, sig j = false) :
    ∀ (ts : List Task) (i : Nat) (w : Workflow) (acc : RunAcc),
      w.status = WorkflowStatus.running →
      w.current_iteration ≤ w.config.max_iterations →
      ((runSequentialGo agents now sig ts i w acc).2.completed
          + (runSequentialGo agents now sig ts i w acc).2.failed
        = acc.completed + acc.failed + ts.length) ∧
      ((runSequentialGo agents now sig ts i w acc).1.current_iteration
        = min (w.current_iteration + ts.length) w.config.max_iterations) ∧
      ((runSequentialGo agents now sig ts i w acc).1.status = WorkflowStatus.running) ∧
      ((runSequentialGo agents now sig ts i w acc).1.config = w.config) := by
  intro ts
  induction ts with
  | nil =>
      intro i w acc hst hit
      refine ⟨by simp [runSequentialGo], ?_, by simp [runSequentialGo, hst], by simp [runSequentialGo]⟩
      simp only [runSequentialGo, List.length_nil, Nat.add_zero]
      omega
  | cons t rest ih =>
      intro i w acc hst hit
      have hstep : runSequentialGo agents now sig (t :: rest) i w acc =
          runSequentialGo agents now sig rest (i + 1)
            (((w.update_task (executeDispatch agents now w.config t).1).increment_iteration).2)
            (tallyResult t (executeDispatch agents now w.config t).2 acc) := by
        rw [seqGo_cons]
        simp only [hsig i, Bool.false_eq_true, if_false, hst]
        rfl
      set w3 := (((w.update_task (executeDispatch agents now w.config t).1)).increment_iteration).2 with hw3
      have hst3 : w3.status = WorkflowStatus.running := by
        rw [hw3, increment_status_eq, update_task_status]
        exact hst
      have hcfg3 : w3.config = w.config := by
        rw [hw3, increment_iteration_config_eq, update_task_config]
      have hit3iter : w3.current_iteration =
          if w.current_iteration ≥ w.config.max_iterations then w.current_iteration
          else w.current_iteration + 1 := by
        rw [hw3, increment_iter_eq, update_task_iter, update_task_config]
      have hit3 : w3.current_iteration ≤ w3.config.max_iterations := by
        rw [hcfg3, hit3iter]
        split <;> omega
      obtain ⟨ihc, ihi, ihs, ihcfg⟩ := ih (i + 1) w3
        (tallyResult t (executeDispatch agents now w.config t).2 acc) hst3 hit3
      rw [hstep]
      refine ⟨?_, ?_, ihs, by rw [ihcfg, hcfg3]⟩
      · rw [ihc, tally_count]
        simp only [List.length_cons]
        omega
      · rw [ihi, hcfg3, hit3iter]
        simp only [List.length_cons]
        split <;> omega

theorem seqGo_errors_form (agents : Agents) (now : Nat) (sig : Nat → Bool) :
    ∀ (ts : List Task) (i : Nat) (w : Workflow) (acc : RunAcc),
      (∀ e ∈ acc.errors, errorForm e) →
      ∀ e ∈ (runSequentialGo agents now sig ts i w acc).2.errors, errorForm e := by
  intro ts
  induction ts with
  | nil =>
      intro i w acc hacc
      simpa [runSequentialGo] using hacc
  | cons t rest ih =>
      intro i w acc hacc
      rw [seqGo_cons]
      simp only
      split <;> split
      all_goals
        first
          | exact fun e he => hacc e he
          | (apply ih
             intro e he
             rcases tally_errors t _ acc e he with h | ⟨msg, rfl⟩
             · exact hacc e h
             · exact ⟨t.name, msg, rfl⟩)

/-- Claim C9: in SEQUENTIAL mode increment_iteration is called once per
    task with its boolean result ignored, so reaching
    config.max_iterations never aborts the loop: every task in the list is
    still tallied (completed + failed counts the whole list) and the final
    counter saturates at the cap. -/
theorem claim_C9_sequential_cap_not_enforced (agents : Agents) (now fuel : Nat)
    (sig : Nat → Bool) (crew : Except String String) (w : Workflow)
    (hmode : w.config.mode = WorkflowMode.sequential)
    (hsig : ∀ j, sig j = false)
    (hiter : w.current_iteration ≤ w.config.max_iterations) :
    ((run_workflow agents now sig fuel crew w).2.tasks_completed
        + (run_workflow agents now sig fuel crew w).2.tasks_failed
      = w.tasks.length) ∧
    ((run_workflow agents now sig fuel crew w).1.current_iteration
      = min (w.current_iteration + w.tasks.length) w.config.max_iterations) := by
  have hsm : (w.start now).config.mode = WorkflowMode.sequential := hmode
  have hbody : runBody agents now sig fuel crew (w.start now) =
      runSequentialGo agents now sig (w.start now).tasks 0 (w.start now) ⟨0, 0, [], []⟩ := by
    unfold runBody
    rw [hsm]
  have hst : (w.start now).status = WorkflowStatus.running := rfl
  have hit : (w.start now).current_iteration ≤ (w.start now).config.max_iterations := hiter
  obtain ⟨hc, hi, hs, hcfg⟩ :=
    seqGo_no_pause agents now sig hsig (w.start now).tasks 0 (w.start now)
      ⟨0, 0, [], []⟩ hst hit
  unfold run_workflow
  rw [hbody]
  unfold finishRun
  rw [if_neg (by simp [hs])]
  constructor
  · simpa using hc
  · simpa using hi

/-- Claim C9 witness: a sequential two-task workflow with iteration cap 0
    still executes and tallies both tasks, and the counter stays at the
    cap. -/
theorem claim_C9_witness :
    ((run_workflow stubAgents 0 (fun _ => false) 5 (Except.ok "")
        cappedSequentialWorkflow).2.tasks_completed
      + (run_workflow stubAgents 0 (fun _ => false) 5 (Except.ok "")
          cappedSequentialWorkflow).2.tasks_failed = 2) ∧
    ((run_workflow stubAgents 0 (fun _ => false) 5 (Except.ok "")
        cappedSequentialWorkflow).1.current_iteration = 0) :=
  ⟨(claim_C9_sequential_cap_not_enforced stubAgents 0 5 (fun _ => false)
      (Except.ok "") cappedSequentialWorkflow rfl (fun _ => rfl) (by decide)).1,
   (claim_C9_sequential_cap_not_enforced stubAgents 0 5 (fun _ => false)
      (Except.ok "") cappedSequentialWorkflow rfl (fun _ => rfl) (by decide)).2⟩

/-- Claim C8 (amended): for non-paused runs the success flag is exactly
    tasks_failed == 0 — including runs aborted by an unresolvable
    dependency graph, which therefore report success when no task failed;
    a paused run reports success = false with the "Workflow paused"
    marker; and in sequential mode every collected error string has the
    form "Task <name>: <message>". -/
theorem claim_C8_success_flag (agents : Agents) (now fuel : Nat) (sig : Nat → Bool)
    (crew : Except String String) (w : Workflow) :
    ((run_workflow agents now sig fuel crew w).1.status ≠ WorkflowStatus.paused →
      ((run_workflow agents now sig fuel crew w).2.success = true ↔
        (run_workflow agents now sig fuel crew w).2.tasks_failed = 0)) ∧
    ((run_workflow agents now sig fuel crew w).1.status = WorkflowStatus.paused →
      (run_workflow agents now sig fuel crew w).2.success = false ∧
      (run_workflow agents now sig fuel crew w).2.errors = ["Workflow paused"]) ∧
    (w.config.mode = WorkflowMode.sequential →
      ∀ e ∈ (run_workflow agents now sig fuel crew w).2.errors,
        errorForm e ∨ e = "Workflow paused") := by
  have hsm : ∀ h : w.config.mode = WorkflowMode.sequential,
      runBody agents now sig fuel crew (w.start now) =
        runSequentialGo agents now sig (w.start now).tasks 0 (w.start now)
          ⟨0, 0, [], []⟩ := by
    intro h
    unfold runBody
    rw [show (w.start now).config.mode = WorkflowMode.sequential from h]
  unfold run_workflow
  set wa := runBody agents now sig fuel crew (w.start now) with hwa
  unfold finishRun
  by_cases hp : wa.1.status = WorkflowStatus.paused
  · rw [if_pos (by simp [hp])]
    refine ⟨?_, ?_, ?_⟩
    · intro hcontra
      exact absurd hp hcontra
    · intro _
      exact ⟨rfl, rfl⟩
    · intro _ e he
      simp only at he
      rcases List.mem_singleton.mp he with rfl
      exact Or.inr rfl
  · rw [if_neg (by simp [hp])]
    refine ⟨?_, ?_, ?_⟩
    · intro _
      simp
    · intro hcontra
      exfalso
      revert hcontra
      simp only [Workflow.complete]
      split <;> simp
    · intro hmode e he
      simp only at he
      rw [hsm hmode] at he
      left
      exact seqGo_errors_form agents now sig (w.start now).tasks 0 (w.start now)
        ⟨0, 0, [], []⟩ (by intro x hx; cases hx) e he

/-- Claim C8 counterexample: the deadlocked parallel workflow is aborted
    with the unresolvable-dependency error and zero failed tasks, yet the
    returned WorkflowResult has success = true and the workflow is marked
    COMPLETED — an aborted run does not force success = false. -/
theorem claim_C8_counterexample :
    deadlockRun.2.success = true ∧
    deadlockRun.2.tasks_failed = 0 ∧
    deadlockRun.2.errors = ["Workflow has unresolvable dependencies or no ready tasks"] ∧
    deadlockRun.1.status = WorkflowStatus.completed := by
  decide

/-- Claim C8 witness: the failing one-task sequential run is not paused,
    its success flag is false exactly because tasks_failed is nonzero, and
    its sole error has the task form. -/
theorem claim_C8_witness :
    ((failingSeqRun.2.success = true ↔ failingSeqRun.2.tasks_failed = 0)) ∧
    (errorForm "Task A: boom" ∨ "Task A: boom" = "Workflow paused") :=
  ⟨(claim_C8_success_flag failAgents 0 5 (fun _ => false) (Except.ok "")
      oneTaskWorkflow).1 (by decide),
   (claim_C8_success_flag failAgents 0 5 (fun _ => false) (Except.ok "")
      oneTaskWorkflow).2.2 rfl "Task A: boom" (by decide)⟩

end Orch
